import Mathlib

/-!
Shallow embedding of `src/orchestrator.py` (and its behaviourally identical
variant `src/orchestrator/orchestrator.py`) from grepx-support/grepx-orchestrator.

The Python script is a linear sequence of shell invocations gated by
filesystem-existence checks.  We embed it as pure Lean functions that,
given an environment oracle (answers of `Path.exists()`, outcomes of
`subprocess.run`, contents of files read line by line), return the Python
return value together with the ordered trace of observable effects
(log lines, prints, directory creations, commands run).  Python dict
access `d[k]` that can raise `KeyError` is embedded with `Except PyErr`;
an `Except.error` value models an uncaught exception propagating out of
the function.  Python dicts preserve insertion order, so configuration
mappings are embedded as association lists.
-/

namespace Orchestrator

/-- A filesystem path, as its list of components (mirrors `pathlib.Path`). -/
abbrev FsPath := List String

/-- Rendering of a path as a string, as Python `str(path)` inside f-strings. -/
def FsPath.render (p : FsPath) : String := String.intercalate "/" p

/-- The Python `/` operator on paths for a single literal component. -/
def FsPath.child (p : FsPath) (s : String) : FsPath := p ++ [s]

/-- The Python `/` operator on paths for a configuration-supplied relative
path, which may itself contain several components separated by slashes. -/
def FsPath.joinRel (p : FsPath) (s : String) : FsPath := p ++ s.splitOn "/"

/-- The Python `Path.parent` property: drop the last component. -/
def FsPath.parent (p : FsPath) : FsPath := p.dropLast

/-- Module constant `SCRIPT_DIR = Path(__file__).parent`, kept symbolic as the
single component the other fixed directories hang off. -/
def SCRIPT_DIR : FsPath := ["."]

/-- Module constant `CONFIG_FILE = SCRIPT_DIR / "orchestrator.yaml"`. -/
def CONFIG_FILE : FsPath := SCRIPT_DIR.child "orchestrator.yaml"

/-- Module constant `REPOS_DIR = SCRIPT_DIR / "repos"`. -/
def REPOS_DIR : FsPath := SCRIPT_DIR.child "repos"

/-- Module constant `LIBS_DIR = SCRIPT_DIR / "libs"`. -/
def LIBS_DIR : FsPath := SCRIPT_DIR.child "libs"

/-- Observable effects of the script, in program order.

`log` embeds a call of the script\x27s `log(level, msg)` helper, the
reporting channel: besides printing, the source helper also appends the
line to the daily file under `LOG_DIR` (log formatting and the log
directory are the spec\x27s explicitly excluded thin I/O wrappers, so the
helper is embedded as a single report event).  `print` is a bare Python
`print`.  `mkdir` records a `Path.mkdir(parents=..., exist_ok=...)` call.
`run` records one `runCmd(cmd, cwd, quiet)` subprocess invocation together
with the boolean success the call returned. -/
inductive Event where
  | log (level msg : String)
  | print (msg : String)
  | mkdir (path : FsPath) (parents existOk : Bool)
  | run (cmd : String) (cwd : Option FsPath) (quiet success : Bool)
deriving DecidableEq, Repr

/-- Whether an event is a subprocess invocation. -/
def Event.isRun : Event → Bool
  | .run _ _ _ _ => true
  | _ => false

/-- Whether an event is a directory creation. -/
def Event.isMkdir : Event → Bool
  | .mkdir _ _ _ => true
  | _ => false

/-- A Python exception escaping the embedded code. -/
inductive PyErr where
  | keyError (key : String)
deriving DecidableEq, Repr

/-- Environment oracle: answers of the impure questions the script asks.
`pathExists` is the result of `Path.exists()` at each check; `cmdSuccess`
is whether a given `runCmd` invocation exits with code zero; `fileLines`
gives the lines (as Python `for line in f` yields them) of a file opened
for reading. -/
structure Env where
  pathExists : FsPath → Bool
  cmdSuccess : String → Option FsPath → Bool → Bool
  fileLines : FsPath → List String

/-- A Python return value paired with the ordered effect trace. -/
abbrev Res (α : Type) := α × List Event

/-- Embedding of `runCmd(cmd, cwd=None, quiet=False)`: runs the command
through the shell and returns whether the exit code was zero.  Both the
quiet and the noisy branch are the same single subprocess call. -/
def runCmd (env : Env) (cmd : String) (cwd : Option FsPath) (quiet : Bool) :
    Res Bool :=
  let ok := env.cmdSuccess cmd cwd quiet
  (ok, [Event.run cmd cwd quiet ok])

/-- Embedding of `clone_or_update(name, url, branch, target_dir)`: pull the
branch if the target directory exists, otherwise clone it; return the
success of that one command. -/
def clone_or_update (env : Env) (name url branch : String)
    (target_dir : FsPath) : Res Bool :=
  if env.pathExists target_dir then
    let e0 := Event.log "INFO" ("Updating " ++ name ++ " from " ++ branch ++ "...")
    let r := runCmd env ("git pull origin " ++ branch) (some target_dir) false
    let tail := if r.1 then [Event.log "OK" (name ++ " updated")] else []
    (r.1, e0 :: r.2 ++ tail)
  else
    let e0 := Event.log "INFO" ("Cloning " ++ name ++ " from " ++ url ++ "...")
    let r := runCmd env
      ("git clone -b " ++ branch ++ " " ++ url ++ " " ++ target_dir.render)
      none false
    let tail := if r.1 then [Event.log "OK" (name ++ " cloned")] else []
    (r.1, e0 :: r.2 ++ tail)

/-- A dependency record from the configuration mapping.  Every field is
optional at this level because Python subscript access on a missing key
raises `KeyError`; the code itself requires `url` and `path` and defaults
`branch` to "main" and `requirements` to `False`. -/
structure DepConfig where
  url : Option String
  branch : Option String
  path : Option String
  requirements : Option Bool
deriving DecidableEq, Repr

/-- A project record from the configuration mapping; the code requires
`url`, defaults `branch` to "main" and `dependencies` to the empty list. -/
structure ProjectConfig where
  url : Option String
  branch : Option String
  dependencies : Option (List String)
deriving DecidableEq, Repr

/-- The loaded configuration document: two top-level mappings, embedded as
insertion-ordered association lists (Python dicts preserve order); either
top-level key may be absent (`config.get` defaults them). -/
structure Config where
  projects : Option (List (String × ProjectConfig))
  dependencies : Option (List (String × DepConfig))
deriving DecidableEq, Repr

/-- Embedding of `install_dependency(dep_name, dep_config)`: read the record
fields (raising `KeyError` for a missing `url` or `path`), create the
parent directory, sync the checkout, optionally install the requirements
manifest quietly, then install the dependency in editable mode quietly.
Returns `False` as soon as the sync fails, `True` otherwise. -/
def install_dependency (env : Env) (dep_name : String) (dep_config : DepConfig) :
    Res (Except PyErr Bool) :=
  match dep_config.url with
  | none => (Except.error (PyErr.keyError "url"), [])
  | some url =>
    let branch := dep_config.branch.getD "main"
    match dep_config.path with
    | none => (Except.error (PyErr.keyError "path"), [])
    | some path =>
      let has_req := dep_config.requirements.getD false
      let dep_path := LIBS_DIR.joinRel path
      let t0 := [Event.mkdir dep_path.parent true true,
                 Event.log "INFO" ("Processing dependency: " ++ dep_name)]
      let sync := clone_or_update env dep_name url branch dep_path
      if sync.1 = false then
        (Except.ok false, t0 ++ sync.2)
      else
        let t1 :=
          if has_req && env.pathExists (dep_path.child "requirements.txt") then
            Event.log "INFO" ("Installing requirements for " ++ dep_name ++ "...")
              :: (runCmd env
                    ("pip install -r " ++ dep_path.render ++ "/requirements.txt")
                    none true).2
          else []
        let t2 := Event.log "INFO" ("Installing " ++ dep_name ++ " in editable mode...")
              :: (runCmd env ("pip install -e " ++ dep_path.render) none true).2
        (Except.ok true,
          t0 ++ sync.2 ++ t1 ++ t2 ++ [Event.log "OK" (dep_name ++ " installed")])

/-- The separator line `'=' * 50` used around deployment banners. -/
def sepLine : String := String.mk (List.replicate 50 (Char.ofNat 61))

/-- Embedding of the dependency loop inside `deploy_project`
(`for i, dep in enumerate(deps, 1): if dep in all_deps: ...`): names
absent from the global dependency mapping are skipped without any event;
resolvable names get the progress print and an `install_dependency` call
whose boolean result is discarded, but whose `KeyError` would propagate
and abort the loop. -/
def installDeps (env : Env) (all_deps : List (String × DepConfig)) :
    List String → Nat → Nat → Res (Except PyErr Unit)
  | [], _, _ => (Except.ok (), [])
  | dep :: rest, i, total =>
    match all_deps.lookup dep with
    | none => installDeps env all_deps rest (i + 1) total
    | some dc =>
      let tp := [Event.print ("\n[" ++ toString i ++ "/" ++ toString total ++ "]")]
      let r := install_dependency env dep dc
      match r.1 with
      | Except.error e => (Except.error e, tp ++ r.2)
      | Except.ok _ =>
        let next := installDeps env all_deps rest (i + 1) total
        (next.1, tp ++ r.2 ++ next.2)

/-- Python whitespace characters stripped by `str.strip()` (ASCII range). -/
def isPySpace (c : Char) : Bool :=
  c == ' ' || c == '\t' || c == '\n' || c == '\r'
    || c == Char.ofNat 11 || c == Char.ofNat 12

/-- Embedding of Python `str.strip()`: drop whitespace from both ends. -/
def pyStrip (s : String) : String :=
  String.mk (((s.toList.dropWhile isPySpace).reverse.dropWhile isPySpace).reverse)

/-- Embedding of the Python check `line.startswith("#")`: for a
one-character prefix this is exactly a check of the first character. -/
def startsWithHash (s : String) : Bool := s.toList.head? == some '#'

/-- Embedding of the manifest loop inside `deploy_project`
(`for line in f: line = line.strip(); if line and not line.startswith(..)`):
each raw line is stripped; a stripped line that is empty or starts with the
comment mark produces no event, any other line is logged and run exactly
once with the project root as working directory, its exit status ignored. -/
def runManifest (env : Env) (project_path : FsPath) :
    List String → List Event
  | [] => []
  | raw :: rest =>
    let line := pyStrip raw
    if !line.isEmpty && !startsWithHash line then
      Event.log "INFO" ("> " ++ line)
        :: (runCmd env line (some project_path) false).2
        ++ runManifest env project_path rest
    else
      runManifest env project_path rest

/-- Embedding of `deploy_project(project_name, config)`: reject names absent
from the `projects` mapping with a logged error and `False`; otherwise sync
the project checkout under `REPOS_DIR`, returning `False` at once if that
fails; then install the resolvable declared dependencies in order, run the
`repo_specific_packages.txt` manifest if present, and return `True`. -/
def deploy_project (env : Env) (project_name : String) (config : Config) :
    Res (Except PyErr Bool) :=
  match (config.projects.getD []).lookup project_name with
  | none =>
    (Except.ok false,
      [Event.log "ERROR"
        ("Project \x27" ++ project_name ++ "\x27 not found in config")])
  | some project_config =>
    let t0 := [Event.print ("\n" ++ sepLine),
               Event.log "INFO" ("Starting deployment: " ++ project_name),
               Event.print (sepLine ++ "\n")]
    match project_config.url with
    | none => (Except.error (PyErr.keyError "url"), t0)
    | some url =>
      let branch := project_config.branch.getD "main"
      let deps := project_config.dependencies.getD []
      let project_path := REPOS_DIR.child project_name
      let t1 := [Event.mkdir REPOS_DIR false true,
                 Event.log "INFO" "Step 1: Cloning/updating project repository"]
      let sync := clone_or_update env project_name url branch project_path
      if sync.1 = false then
        (Except.ok false, t0 ++ t1 ++ sync.2)
      else
        let t2 :=
          if deps.isEmpty then ([], Except.ok ())
          else
            let body := installDeps env (config.dependencies.getD []) deps 1 deps.length
            (Event.print ""
              :: Event.log "INFO"
                   ("Step 2: Installing " ++ toString deps.length ++ " dependencies")
              :: body.2, body.1)
        match t2.2 with
        | Except.error e => (Except.error e, t0 ++ t1 ++ sync.2 ++ t2.1)
        | Except.ok _ =>
          let pkg_file := project_path.child "repo_specific_packages.txt"
          let t3 :=
            if env.pathExists pkg_file then
              Event.print ""
                :: Event.log "INFO" "Step 3: Running project-specific commands"
                :: runManifest env project_path (env.fileLines pkg_file)
            else []
          let t4 := [Event.print ("\n" ++ sepLine),
                     Event.log "OK" ("Deployment completed: " ++ project_name),
                     Event.print (sepLine ++ "\n")]
          (Except.ok true, t0 ++ t1 ++ sync.2 ++ t2.1 ++ t3 ++ t4)

/-- Embedding of `list_projects(config)`: print each configured project with
its branch and a deployed marker driven by directory existence. -/
def list_projects (env : Env) (config : Config) : List Event :=
  Event.print "\nConfigured Projects:"
    :: (config.projects.getD []).map (fun np =>
        let branch := np.2.branch.getD "main"
        let status :=
          if env.pathExists (REPOS_DIR.child np.1) then "Deployed" else "Not Deployed"
        Event.print ("  - " ++ np.1 ++ " (branch: " ++ branch ++ ") [" ++ status ++ "]"))

/-- Parsed command-line arguments of the script (argparse itself is the
spec\x27s excluded thin wrapper; `project` is `None` when the flag is
absent, and Python truthiness makes an empty string fall through to the
help branch). -/
structure Args where
  project : Option String
  list : Bool
  all : Bool
deriving DecidableEq, Repr

/-- The usage text `parser.print_help()` emits (argparse-generated; its
wording is outside the embedded code). -/
def helpText : String := "usage: orchestrator [-h] [-p PROJECT] [-l] [-a]"

/-- Embedding of the `--all` loop in `main`: deploy every key of the
`projects` mapping in order, ignoring each boolean result but letting a
`KeyError` propagate. -/
def deployAll (env : Env) (config : Config) :
    List (String × ProjectConfig) → Res (Except PyErr Unit)
  | [] => (Except.ok (), [])
  | np :: rest =>
    let r := deploy_project env np.1 config
    match r.1 with
    | Except.error e => (Except.error e, r.2)
    | Except.ok _ =>
      let next := deployAll env config rest
      (next.1, r.2 ++ next.2)

/-- Embedding of `main()` after argument parsing: exit 1 when the
configuration file is missing, otherwise dispatch on the flags in their
fixed priority order and complete with exit code 0.  `config` is the
document `yaml.safe_load` yields when the file is present.  The returned
value is the process exit code; `Except.error` models the interpreter
dying on an uncaught `KeyError` instead of completing. -/
def main (env : Env) (args : Args) (config : Config) :
    Res (Except PyErr Nat) :=
  if env.pathExists CONFIG_FILE = false then
    (Except.ok 1,
      [Event.log "ERROR" ("Config file not found: " ++ CONFIG_FILE.render)])
  else if args.list then
    (Except.ok 0, list_projects env config)
  else if args.all then
    let r := deployAll env config (config.projects.getD [])
    match r.1 with
    | Except.error e => (Except.error e, r.2)
    | Except.ok _ => (Except.ok 0, r.2)
  else
    match args.project with
    | some name =>
      if name.isEmpty then
        (Except.ok 0, [Event.print helpText])
      else
        let r := deploy_project env name config
        match r.1 with
        | Except.error e => (Except.error e, r.2)
        | Except.ok _ => (Except.ok 0, r.2)
    | none => (Except.ok 0, [Event.print helpText])

/-- Embedding of the loop inside the variant-only `install_all_libs`
(`for dep_name, dep_config in all_deps.items()`): every mapped dependency
is installed in mapping order with its boolean result discarded, while a
`KeyError` propagates and aborts the loop. -/
def installAllLoop (env : Env) :
    List (String × DepConfig) → Res (Except PyErr Unit)
  | [] => (Except.ok (), [])
  | nd :: rest =>
    let r := install_dependency env nd.1 nd.2
    match r.1 with
    | Except.error e => (Except.error e, r.2)
    | Except.ok _ =>
      let next := installAllLoop env rest
      (next.1, r.2 ++ next.2)

/-- Embedding of `install_all_libs(config)` from the variant
`src/orchestrator/orchestrator.py`: print a banner, iterate
`install_dependency` over the whole dependency mapping, and return `True`
whether or not any individual install failed. -/
def install_all_libs (env : Env) (config : Config) : Res (Except PyErr Bool) :=
  let t0 := [Event.log "INFO" sepLine,
             Event.log "INFO" "Installing all libraries",
             Event.log "INFO" sepLine]
  let all_deps := config.dependencies.getD []
  if all_deps.isEmpty then
    (Except.ok true, t0 ++ [Event.log "INFO" "No dependencies to install"])
  else
    let body := installAllLoop env all_deps
    match body.1 with
    | Except.error e => (Except.error e, t0 ++ body.2)
    | Except.ok _ =>
      (Except.ok true, t0 ++ body.2 ++ [Event.log "INFO" "All libraries installed"])

/-- Parsed command-line arguments of the variant
`src/orchestrator/orchestrator.py`, which adds the `--install-libs` flag
to the common three. -/
structure ArgsV2 where
  project : Option String
  list : Bool
  all : Bool
  installLibs : Bool
deriving DecidableEq, Repr

/-- Embedding of `main()` of the variant `src/orchestrator/orchestrator.py`
after argument parsing: print an error and exit 1 when the configuration
file is missing, otherwise dispatch on the flags in their fixed priority
order (list, install-libs, all, project, help) and complete with exit
code 0.  The variant\x27s `deploy_project` and `list_projects` differ from
the first file only in fixed directory roots and log formatting — the
spec\x27s excluded thin wrappers — so the shared embeddings are reused. -/
def mainV2 (env : Env) (args : ArgsV2) (config : Config) :
    Res (Except PyErr Nat) :=
  if env.pathExists CONFIG_FILE = false then
    (Except.ok 1,
      [Event.print ("Error: Config file not found: " ++ CONFIG_FILE.render)])
  else if args.list then
    (Except.ok 0, list_projects env config)
  else if args.installLibs then
    let r := install_all_libs env config
    match r.1 with
    | Except.error e => (Except.error e, r.2)
    | Except.ok _ => (Except.ok 0, r.2)
  else if args.all then
    let r := deployAll env config (config.projects.getD [])
    match r.1 with
    | Except.error e => (Except.error e, r.2)
    | Except.ok _ => (Except.ok 0, r.2)
  else
    match args.project with
    | some name =>
      if name.isEmpty then
        (Except.ok 0, [Event.print helpText])
      else
        let r := deploy_project env name config
        match r.1 with
        | Except.error e => (Except.error e, r.2)
        | Except.ok _ => (Except.ok 0, r.2)
    | none => (Except.ok 0, [Event.print helpText])

/-! Concrete inputs used by the witness theorems. -/

/-- A concrete environment: nothing exists on disk, every command succeeds,
every file is empty. -/
def envW : Env where
  pathExists := fun _ => false
  cmdSuccess := fun _ _ _ => true
  fileLines := fun _ => []

/-- A concrete environment in which the configuration file and every other
path exist and every command succeeds. -/
def envAll : Env where
  pathExists := fun _ => true
  cmdSuccess := fun _ _ _ => true
  fileLines := fun _ => []

/-- A configuration with an empty projects mapping. -/
def cfgEmpty : Config := { projects := some [], dependencies := none }

/-- A project record with a url and one declared dependency. -/
def pcApp : ProjectConfig :=
  { url := some "https://example/app.git", branch := none,
    dependencies := some ["libx"] }

/-- A dependency record with url and path present. -/
def dcLibx : DepConfig :=
  { url := some "https://example/libx.git", branch := none,
    path := some "libx", requirements := some true }

/-- A configuration holding `pcApp` under "app" and `dcLibx` under "libx". -/
def cfgApp : Config :=
  { projects := some [("app", pcApp)], dependencies := some [("libx", dcLibx)] }

/-! Claim theorems. -/

/-- C1: deploying a project name that is absent from the configured projects
mapping returns `False` and performs no filesystem or subprocess side
effects: the trace holds no subprocess invocation and no directory
creation (only the error report). -/
theorem c1_unknown_project_fails_without_effects
    (env : Env) (name : String) (config : Config)
    (h : ((config.projects.getD []).lookup name) = none) :
    (deploy_project env name config).1 = Except.ok false ∧
    (deploy_project env name config).2.filter
      (fun e => e.isRun || e.isMkdir) = [] := by
  simp [deploy_project, h, Event.isRun, Event.isMkdir]

/-- Witness for C1 at a concrete unknown name and empty configuration. -/
theorem c1_witness :
    (deploy_project envW "app" cfgEmpty).1 = Except.ok false ∧
    (deploy_project envW "app" cfgEmpty).2.filter
      (fun e => e.isRun || e.isMkdir) = [] :=
  c1_unknown_project_fails_without_effects envW "app" cfgEmpty rfl

/-- C2: one invocation of `clone_or_update` issues exactly one subprocess
command — a pull of the branch inside the target directory when that
directory exists, otherwise a clone of the branch from the url — chosen
solely by the existence check, and the returned boolean is the success of
that one command. -/
theorem c2_exactly_one_sync_command
    (env : Env) (name url branch : String) (dir : FsPath) :
    (clone_or_update env name url branch dir).2.filter Event.isRun =
      [if env.pathExists dir then
         Event.run ("git pull origin " ++ branch) (some dir) false
           (clone_or_update env name url branch dir).1
       else
         Event.run ("git clone -b " ++ branch ++ " " ++ url ++ " " ++ dir.render)
           none false (clone_or_update env name url branch dir).1] ∧
    (clone_or_update env name url branch dir).1 =
      (if env.pathExists dir then
         env.cmdSuccess ("git pull origin " ++ branch) (some dir) false
       else
         env.cmdSuccess
           ("git clone -b " ++ branch ++ " " ++ url ++ " " ++ dir.render)
           none false) := by
  cases h : env.pathExists dir <;>
    [cases hs : env.cmdSuccess
        ("git clone -b " ++ branch ++ " " ++ url ++ " " ++ dir.render) none false;
     cases hs : env.cmdSuccess ("git pull origin " ++ branch) (some dir) false] <;>
    simp [clone_or_update, runCmd, h, hs, Event.isRun]

/-- C3: over the manifest loop, a line whose stripped form is empty or
starts with the comment mark produces no subprocess invocation, and every
other line is run exactly once, in file order, with the project root as
working directory. -/
theorem c3_manifest_commands_in_order
    (env : Env) (ppath : FsPath) (lines : List String) :
    (runManifest env ppath lines).filter Event.isRun =
      ((lines.map pyStrip).filter
          (fun l => !l.isEmpty && !startsWithHash l)).map
        (fun l =>
          Event.run l (some ppath) false (env.cmdSuccess l (some ppath) false)) := by
  induction lines with
  | nil => simp [runManifest]
  | cons raw rest ih =>
    cases h : (!(pyStrip raw).isEmpty && !startsWithHash (pyStrip raw)) <;>
      simp [runManifest, h, runCmd, Event.isRun, ih]

/-- C9: each manifest line is stripped of surrounding whitespace before the
emptiness and comment checks, and the command executed is the stripped
form of the line; in particular a line whose first non-whitespace
character is the comment mark is never executed even under leading
whitespace, as the concrete trailing conjunct shows. -/
theorem c9_manifest_lines_stripped_first
    (env : Env) (ppath : FsPath) (raw : String) :
    (runManifest env ppath [raw] =
      if !(pyStrip raw).isEmpty && !startsWithHash (pyStrip raw) then
        [Event.log "INFO" ("> " ++ pyStrip raw),
         Event.run (pyStrip raw) (some ppath) false
           (env.cmdSuccess (pyStrip raw) (some ppath) false)]
      else []) ∧
    runManifest env ppath ["  \t# commented", "", "  echo hi  "] =
      [Event.log "INFO" ("> echo hi"),
       Event.run "echo hi" (some ppath) false
         (env.cmdSuccess "echo hi" (some ppath) false)] := by
  constructor
  · cases h : (!(pyStrip raw).isEmpty && !startsWithHash (pyStrip raw)) <;>
      simp [runManifest, h, runCmd]
  · rfl

/-- C4: for a configured project (with its required url present), any
boolean `deploy_project` returns equals the success of the project\x27s own
repository sync; in particular a failed sync yields `False` and stops the
deployment with no further subprocess invocation beyond the sync itself,
and no dependency-install or manifest outcome can make the returned
boolean `False`. -/
theorem c4_result_is_own_sync_outcome
    (env : Env) (name : String) (config : Config) (pc : ProjectConfig)
    (u : String)
    (h1 : (config.projects.getD []).lookup name = some pc)
    (h2 : pc.url = some u) :
    (∀ b, (deploy_project env name config).1 = Except.ok b →
      b = (clone_or_update env name u (pc.branch.getD "main")
            (REPOS_DIR.child name)).1) ∧
    ((clone_or_update env name u (pc.branch.getD "main")
        (REPOS_DIR.child name)).1 = false →
      (deploy_project env name config).1 = Except.ok false ∧
      (deploy_project env name config).2.filter Event.isRun =
        (clone_or_update env name u (pc.branch.getD "main")
          (REPOS_DIR.child name)).2.filter Event.isRun) := by
  cases hs : (clone_or_update env name u (pc.branch.getD "main")
      (REPOS_DIR.child name)).1 with
  | false =>
    refine ⟨fun b hb => ?_, fun _ => ?_⟩
    · simp [deploy_project, h1, h2, hs] at hb
      exact hb
    · constructor
      · simp [deploy_project, h1, h2, hs]
      · simp [deploy_project, h1, h2, hs, Event.isRun]
  | true =>
    refine ⟨fun b hb => ?_, fun hcontra => by simp at hcontra⟩
    by_cases hd : (pc.dependencies.getD []).isEmpty
    · simp [deploy_project, h1, h2, hs, hd] at hb
      exact hb
    · cases hid : (installDeps env (config.dependencies.getD [])
          (pc.dependencies.getD []) 1 (pc.dependencies.getD []).length).1 with
      | error e => simp [deploy_project, h1, h2, hs, hd, hid] at hb
      | ok v =>
        simp [deploy_project, h1, h2, hs, hd, hid] at hb
        exact hb

/-- Witness for C4 at the concrete configuration holding project "app". -/
theorem c4_witness :
    (∀ b, (deploy_project envW "app" cfgApp).1 = Except.ok b →
      b = (clone_or_update envW "app" "https://example/app.git"
            (pcApp.branch.getD "main") (REPOS_DIR.child "app")).1) ∧
    ((clone_or_update envW "app" "https://example/app.git"
        (pcApp.branch.getD "main") (REPOS_DIR.child "app")).1 = false →
      (deploy_project envW "app" cfgApp).1 = Except.ok false ∧
      (deploy_project envW "app" cfgApp).2.filter Event.isRun =
        (clone_or_update envW "app" "https://example/app.git"
          (pcApp.branch.getD "main") (REPOS_DIR.child "app")).2.filter
          Event.isRun) :=
  c4_result_is_own_sync_outcome envW "app" cfgApp pcApp
    "https://example/app.git" rfl rfl

/-- C10: a dependency record without the required url key makes
`install_dependency` raise `KeyError` (as does a record with a url but no
path key), and a configured project record without its url key makes
`deploy_project` raise `KeyError`; none of these report a failure boolean. -/
theorem c10_missing_required_keys_raise (env : Env) :
    (∀ n dc, dc.url = none →
      (install_dependency env n dc).1 = Except.error (PyErr.keyError "url")) ∧
    (∀ n dc u, dc.url = some u → dc.path = none →
      (install_dependency env n dc).1 = Except.error (PyErr.keyError "path")) ∧
    (∀ name config pc, (config.projects.getD []).lookup name = some pc →
      pc.url = none →
      (deploy_project env name config).1 = Except.error (PyErr.keyError "url")) := by
  refine ⟨fun n dc h => ?_, fun n dc u hu hp => ?_, fun name config pc h1 h2 => ?_⟩
  · simp [install_dependency, h]
  · simp [install_dependency, hu, hp]
  · simp [deploy_project, h1, h2]

/-- A dependency record with no url key at all. -/
def dcNoUrl : DepConfig :=
  { url := none, branch := none, path := none, requirements := none }

/-- A dependency record with a url but no path key. -/
def dcNoPath : DepConfig :=
  { url := some "https://example/x.git", branch := none, path := none,
    requirements := none }

/-- A project record with no url key. -/
def pcNoUrl : ProjectConfig :=
  { url := none, branch := none, dependencies := none }

/-- A configuration holding `pcNoUrl` under "app". -/
def cfgNoUrl : Config :=
  { projects := some [("app", pcNoUrl)], dependencies := none }

/-- Recognizer for a subprocess event running one given command string. -/
def Event.isRunOf (c : String) : Event → Bool
  | .run cmd _ _ _ => cmd == c
  | _ => false

/-- Distinct leading characters separate a pull command from a
requirements-install command, whatever gets interpolated. -/
theorem gitPull_ne_pipReq (b y z : String) :
    ("git pull origin " ++ b) ≠ ("pip install -r " ++ y ++ z) := by
  intro h
  have h2 := congrArg (fun s => s.data.get? 0) h
  simp [String.data_append] at h2

/-- Distinct leading characters separate a clone command from a
requirements-install command, whatever gets interpolated. -/
theorem gitClone_ne_pipReq (b u r y z : String) :
    ("git clone -b " ++ b ++ " " ++ u ++ " " ++ r) ≠
      ("pip install -r " ++ y ++ z) := by
  intro h
  have h2 := congrArg (fun s => s.data.get? 0) h
  simp [String.data_append] at h2

/-- The editable-install and the requirements-install commands differ at the
mode flag, whatever gets interpolated. -/
theorem pipEditable_ne_pipReq (x y z : String) :
    ("pip install -e " ++ x) ≠ ("pip install -r " ++ y ++ z) := by
  intro h
  have h2 := congrArg (fun s => s.data.get? 13) h
  simp [String.data_append] at h2

/-- C5: once a dependency record (url and path present) has synced
successfully, the requirements-install command is issued exactly once when
the requirements flag is set and `requirements.txt` exists in the synced
directory, and not at all otherwise; either way the function still
reports success, so the suppression carries no error. -/
theorem c5_requirements_install_iff_flag_and_file
    (env : Env) (n : String) (dc : DepConfig) (u p : String)
    (hu : dc.url = some u) (hp : dc.path = some p)
    (hs : (clone_or_update env n u (dc.branch.getD "main")
      (LIBS_DIR.joinRel p)).1 = true) :
    (install_dependency env n dc).1 = Except.ok true ∧
    (install_dependency env n dc).2.countP
        (Event.isRunOf
          ("pip install -r " ++ (LIBS_DIR.joinRel p).render ++
            "/requirements.txt")) =
      (if dc.requirements.getD false &&
          env.pathExists ((LIBS_DIR.joinRel p).child "requirements.txt")
       then 1 else 0) := by
  cases hpe : env.pathExists (LIBS_DIR.joinRel p) with
  | false =>
    have hs' : env.cmdSuccess
        ("git clone -b " ++ dc.branch.getD "main" ++ " " ++ u ++ " " ++
          (LIBS_DIR.joinRel p).render) none false = true := by
      have := hs
      simp [clone_or_update, runCmd, hpe] at this
      exact this
    cases hr : (dc.requirements.getD false &&
        env.pathExists ((LIBS_DIR.joinRel p).child "requirements.txt")) <;>
      simp [install_dependency, hu, hp, clone_or_update, runCmd, hpe, hs', hr,
        Event.isRunOf, List.countP_cons, List.countP_append,
        gitClone_ne_pipReq, pipEditable_ne_pipReq]
  | true =>
    have hs' : env.cmdSuccess ("git pull origin " ++ dc.branch.getD "main")
        (some (LIBS_DIR.joinRel p)) false = true := by
      have := hs
      simp [clone_or_update, runCmd, hpe] at this
      exact this
    cases hr : (dc.requirements.getD false &&
        env.pathExists ((LIBS_DIR.joinRel p).child "requirements.txt")) <;>
      simp [install_dependency, hu, hp, clone_or_update, runCmd, hpe, hs', hr,
        Event.isRunOf, List.countP_cons, List.countP_append,
        gitPull_ne_pipReq, pipEditable_ne_pipReq]

/-- Witness for C5 at the concrete libx dependency in an environment where
everything exists and every command succeeds. -/
theorem c5_witness :
    (install_dependency envAll "libx" dcLibx).1 = Except.ok true ∧
    (install_dependency envAll "libx" dcLibx).2.countP
        (Event.isRunOf
          ("pip install -r " ++ (LIBS_DIR.joinRel "libx").render ++
            "/requirements.txt")) =
      (if dcLibx.requirements.getD false &&
          envAll.pathExists ((LIBS_DIR.joinRel "libx").child "requirements.txt")
       then 1 else 0) :=
  c5_requirements_install_iff_flag_and_file envAll "libx" dcLibx
    "https://example/libx.git" "libx" rfl rfl rfl

/-- With both required keys present, `install_dependency` reports exactly
the boolean outcome of its repository sync. -/
theorem install_dependency_result (env : Env) (n : String) (dc : DepConfig)
    (u p : String) (hu : dc.url = some u) (hp : dc.path = some p) :
    (install_dependency env n dc).1 =
      Except.ok ((clone_or_update env n u (dc.branch.getD "main")
        (LIBS_DIR.joinRel p)).1) := by
  cases hs : (clone_or_update env n u (dc.branch.getD "main")
      (LIBS_DIR.joinRel p)).1 <;>
    simp [install_dependency, hu, hp, hs]

/-- With both required keys present, the processing announcement for the
dependency is part of the `install_dependency` trace. -/
theorem install_dependency_announces (env : Env) (n : String) (dc : DepConfig)
    (u p : String) (hu : dc.url = some u) (hp : dc.path = some p) :
    Event.log "INFO" ("Processing dependency: " ++ n) ∈
      (install_dependency env n dc).2 := by
  cases hs : (clone_or_update env n u (dc.branch.getD "main")
      (LIBS_DIR.joinRel p)).1 <;>
    simp [install_dependency, hu, hp, hs]

/-- C6: a dependency whose sync fails is aborted — `install_dependency`
returns `False` and runs no command beyond the failed sync itself — while
the dependency loop of the deployer keeps going: provided the mapped
records carry their required keys, the loop completes without error and
still reaches every resolvable listed dependency. -/
theorem c6_failed_sync_aborts_dep_but_loop_continues
    (env : Env) (n : String) (dc : DepConfig) (u p : String)
    (hu : dc.url = some u) (hp : dc.path = some p)
    (hf : (clone_or_update env n u (dc.branch.getD "main")
      (LIBS_DIR.joinRel p)).1 = false)
    (all : List (String × DepConfig))
    (hall : ∀ d c, all.lookup d = some c → c.url.isSome ∧ c.path.isSome) :
    ((install_dependency env n dc).1 = Except.ok false ∧
     (install_dependency env n dc).2.filter Event.isRun =
       (clone_or_update env n u (dc.branch.getD "main")
         (LIBS_DIR.joinRel p)).2.filter Event.isRun) ∧
    (∀ deps i tot, (installDeps env all deps i tot).1 = Except.ok () ∧
      ∀ d, d ∈ deps → (all.lookup d).isSome = true →
        Event.log "INFO" ("Processing dependency: " ++ d) ∈
          (installDeps env all deps i tot).2) := by
  constructor
  · constructor
    · rw [install_dependency_result env n dc u p hu hp, hf]
    · simp [install_dependency, hu, hp, hf, Event.isRun]
  · intro deps
    induction deps with
    | nil => intro i tot; simp [installDeps]
    | cons d0 rest ih =>
      intro i tot
      cases hl : all.lookup d0 with
      | none =>
        have hstep : installDeps env all (d0 :: rest) i tot =
            installDeps env all rest (i + 1) tot := by
          simp [installDeps, hl]
        rw [hstep]
        refine ⟨(ih (i + 1) tot).1, fun d hd hres => ?_⟩
        rcases List.mem_cons.mp hd with hd | hd
        · subst hd
          rw [hl] at hres
          simp at hres
        · exact (ih (i + 1) tot).2 d hd hres
      | some c =>
        obtain ⟨hcu, hcp⟩ := hall d0 c hl
        obtain ⟨cu, hcu⟩ := Option.isSome_iff_exists.mp hcu
        obtain ⟨cp, hcp⟩ := Option.isSome_iff_exists.mp hcp
        have hres0 := install_dependency_result env d0 c cu cp hcu hcp
        constructor
        · simp [installDeps, hl, hres0, (ih (i + 1) tot).1]
        · intro d hd hres
          rcases List.mem_cons.mp hd with hd | hd
          · subst hd
            have hmem := install_dependency_announces env d c cu cp hcu hcp
            simp [installDeps, hl, hres0]
            tauto
          · have hmem := (ih (i + 1) tot).2 d hd hres
            simp [installDeps, hl, hres0]
            tauto

/-- An environment in which nothing exists and every command fails. -/
def envFail : Env where
  pathExists := fun _ => false
  cmdSuccess := fun _ _ _ => false
  fileLines := fun _ => []

/-- Witness for C6 at the concrete libx dependency with a failing sync. -/
theorem c6_witness :
    ((install_dependency envFail "libx" dcLibx).1 = Except.ok false ∧
     (install_dependency envFail "libx" dcLibx).2.filter Event.isRun =
       (clone_or_update envFail "libx" "https://example/libx.git"
         (dcLibx.branch.getD "main")
         (LIBS_DIR.joinRel "libx")).2.filter Event.isRun) ∧
    (∀ deps i tot,
      (installDeps envFail [("libx", dcLibx)] deps i tot).1 = Except.ok () ∧
      ∀ d, d ∈ deps →
        (List.lookup d [("libx", dcLibx)]).isSome = true →
        Event.log "INFO" ("Processing dependency: " ++ d) ∈
          (installDeps envFail [("libx", dcLibx)] deps i tot).2) :=
  c6_failed_sync_aborts_dep_but_loop_continues envFail "libx" dcLibx
    "https://example/libx.git" "libx" rfl rfl rfl [("libx", dcLibx)]
    (by
      intro d c h
      by_cases hd : d = "libx"
      · subst hd
        simp [List.lookup] at h
        subst h
        exact ⟨rfl, rfl⟩
      · have hbeq : (d == "libx") = false := by
          simp [hd]
        simp [List.lookup, hbeq] at h)

/-- The results and commands of the dependency loop do not depend on the
enumeration counter and the printed total, which only feed progress
output. -/
theorem installDeps_counter_irrelevant (env : Env)
    (all : List (String × DepConfig)) :
    ∀ deps i j tot tot2,
      (installDeps env all deps i tot).1 =
        (installDeps env all deps j tot2).1 ∧
      (installDeps env all deps i tot).2.filter Event.isRun =
        (installDeps env all deps j tot2).2.filter Event.isRun := by
  intro deps
  induction deps with
  | nil => intro i j tot tot2; exact ⟨rfl, rfl⟩
  | cons d rest ih =>
    intro i j tot tot2
    cases hl : all.lookup d with
    | none => simpa [installDeps, hl] using ih (i + 1) (j + 1) tot tot2
    | some c =>
      cases hr : (install_dependency env d c).1 with
      | error e => simp [installDeps, hl, hr, Event.isRun]
      | ok b =>
        have h1 := ih (i + 1) (j + 1) tot tot2
        simp [installDeps, hl, hr, Event.isRun, List.filter_append, h1.1, h1.2]

/-- C7: the dependency loop treats names that do not resolve in the global
dependency mapping as if they were not listed at all — the loop over the
full list returns the same result and issues exactly the same commands as
the loop over only the resolvable names, in declaration order, with no
error for the dropped names. -/
theorem c7_unresolvable_deps_silently_skipped (env : Env)
    (all : List (String × DepConfig)) :
    ∀ deps i j tot tot2,
      (installDeps env all deps i tot).1 =
        (installDeps env all (deps.filter fun d => (all.lookup d).isSome)
          j tot2).1 ∧
      (installDeps env all deps i tot).2.filter Event.isRun =
        (installDeps env all (deps.filter fun d => (all.lookup d).isSome)
          j tot2).2.filter Event.isRun := by
  intro deps
  induction deps with
  | nil => intro i j tot tot2; exact ⟨rfl, rfl⟩
  | cons d rest ih =>
    intro i j tot tot2
    cases hl : all.lookup d with
    | none =>
      have hfd : ((all.lookup d).isSome : Bool) = false := by
        rw [hl]
        rfl
      simpa [installDeps, hl, List.filter_cons, hfd] using ih (i + 1) j tot tot2
    | some c =>
      have hfd : ((all.lookup d).isSome : Bool) = true := by
        rw [hl]
        rfl
      cases hr : (install_dependency env d c).1 with
      | error e =>
        simp [installDeps, hl, List.filter_cons, hfd, hr, Event.isRun]
      | ok b =>
        have h1 := ih (i + 1) (j + 1) tot tot2
        simp [installDeps, hl, List.filter_cons, hfd, hr, Event.isRun,
          List.filter_append, h1.1, h1.2]

/-- C8: for both drivers, a run with the configuration file missing
completes with exit code 1, and every completion's exit code is fully
pinned by that one check — 1 when the file is missing and 0 otherwise —
so help prints, listings and deployments with failing clone, pull or
install commands all exit 0.  A run killed by an uncaught exception does
not complete and returns no exit code here. -/
theorem c8_exit_code_one_iff_config_missing
    (env : Env) (args : Args) (argsl : ArgsV2) (config : Config) :
    ((env.pathExists CONFIG_FILE = false →
        (main env args config).1 = Except.ok 1) ∧
     (∀ code, (main env args config).1 = Except.ok code →
        code = if env.pathExists CONFIG_FILE then 0 else 1)) ∧
    ((env.pathExists CONFIG_FILE = false →
        (mainV2 env argsl config).1 = Except.ok 1) ∧
     (∀ code, (mainV2 env argsl config).1 = Except.ok code →
        code = if env.pathExists CONFIG_FILE then 0 else 1)) := by
  cases hc : env.pathExists CONFIG_FILE with
  | false =>
    refine ⟨⟨fun _ => by simp [main, hc], fun code h => ?_⟩,
            ⟨fun _ => by simp [mainV2, hc], fun code h => ?_⟩⟩
    · simp [main, hc] at h
      simp [h]
    · simp [mainV2, hc] at h
      simp [h]
  | true =>
    refine ⟨⟨fun h => by simp at h, fun code h => ?_⟩,
            ⟨fun h => by simp at h, fun code h => ?_⟩⟩
    · simp only [if_true]
      by_cases hl : args.list
      · simp [main, hc, hl] at h
        omega
      · by_cases ha : args.all
        · cases hda : (deployAll env config (config.projects.getD [])).1 with
          | error e => simp [main, hc, hl, ha, hda] at h
          | ok v =>
            simp [main, hc, hl, ha, hda] at h
            omega
        · cases hp : args.project with
          | none =>
            simp [main, hc, hl, ha, hp] at h
            omega
          | some nm =>
            by_cases hne : nm.isEmpty
            · simp [main, hc, hl, ha, hp, hne] at h
              omega
            · cases hdp : (deploy_project env nm config).1 with
              | error e => simp [main, hc, hl, ha, hp, hne, hdp] at h
              | ok b =>
                simp [main, hc, hl, ha, hp, hne, hdp] at h
                omega
    · simp only [if_true]
      by_cases hl : argsl.list
      · simp [mainV2, hc, hl] at h
        omega
      · by_cases hil : argsl.installLibs
        · cases hia : (install_all_libs env config).1 with
          | error e => simp [mainV2, hc, hl, hil, hia] at h
          | ok v =>
            simp [mainV2, hc, hl, hil, hia] at h
            omega
        · by_cases ha : argsl.all
          · cases hda : (deployAll env config (config.projects.getD [])).1 with
            | error e => simp [mainV2, hc, hl, hil, ha, hda] at h
            | ok v =>
              simp [mainV2, hc, hl, hil, ha, hda] at h
              omega
          · cases hp : argsl.project with
            | none =>
              simp [mainV2, hc, hl, hil, ha, hp] at h
              omega
            | some nm =>
              by_cases hne : nm.isEmpty
              · simp [mainV2, hc, hl, hil, ha, hp, hne] at h
                omega
              · cases hdp : (deploy_project env nm config).1 with
                | error e => simp [mainV2, hc, hl, hil, ha, hp, hne, hdp] at h
                | ok b =>
                  simp [mainV2, hc, hl, hil, ha, hp, hne, hdp] at h
                  omega

/-- Arguments with no flag set, so the driver would print usage help. -/
def argsHelp : Args := { project := none, list := false, all := false }

/-- Variant-driver arguments with no flag set. -/
def argsV2Help : ArgsV2 :=
  { project := none, list := false, all := false, installLibs := false }

/-- Arguments that deploy the single project "app". -/
def argsDeployApp : Args := { project := some "app", list := false, all := false }

/-- An environment in which every path (the configuration file included)
exists and every command fails. -/
def envExistFail : Env where
  pathExists := fun _ => true
  cmdSuccess := fun _ _ _ => false
  fileLines := fun _ => []

/-- Witness for C8: with the configuration file missing both drivers exit
1, and a completed deployment whose pull command failed with the file
present still exits 0. -/
theorem c8_witness :
    (main envW argsHelp cfgEmpty).1 = Except.ok 1 ∧
    (mainV2 envW argsV2Help cfgEmpty).1 = Except.ok 1 ∧
    (1 : Nat) = (if envW.pathExists CONFIG_FILE then 0 else 1) ∧
    (0 : Nat) = (if envExistFail.pathExists CONFIG_FILE then 0 else 1) :=
  ⟨(c8_exit_code_one_iff_config_missing envW argsHelp argsV2Help cfgEmpty).1.1
     rfl,
   (c8_exit_code_one_iff_config_missing envW argsHelp argsV2Help cfgEmpty).2.1
     rfl,
   (c8_exit_code_one_iff_config_missing envW argsHelp argsV2Help cfgEmpty).1.2
     1
     ((c8_exit_code_one_iff_config_missing envW argsHelp argsV2Help
        cfgEmpty).1.1 rfl),
   (c8_exit_code_one_iff_config_missing envExistFail argsDeployApp argsV2Help
      cfgApp).1.2 0 rfl⟩

/-- Witness for C10 at concrete records lacking the required keys. -/
theorem c10_witness :
    (install_dependency envW "d" dcNoUrl).1 = Except.error (PyErr.keyError "url") ∧
    (install_dependency envW "d" dcNoPath).1 = Except.error (PyErr.keyError "path") ∧
    (deploy_project envW "app" cfgNoUrl).1 = Except.error (PyErr.keyError "url") :=
  ⟨(c10_missing_required_keys_raise envW).1 "d" dcNoUrl rfl,
   (c10_missing_required_keys_raise envW).2.1 "d" dcNoPath
     "https://example/x.git" rfl rfl,
   (c10_missing_required_keys_raise envW).2.2 "app" cfgNoUrl pcNoUrl rfl rfl⟩

end Orchestrator
